import Mathlib

/-!
Shallow embedding of the guruji optimistic-auth subsystem.

Two source modules are modelled:
* `AuthCache` (src/unnamed/part_000; the revision that defines
  `markHasAccount` and `hasAccount`, i.e. the second copy in the file,
  which the later line references point into): a localStorage-backed
  TTL cache of UI auth state plus a sticky has-account flag, and the
  optimistic renderer.
* `BrowserDetect` (src/static/js/browser-detect.js): in-app-browser
  classification and the sign-in / sign-up flow router.

Modelling conventions:
* localStorage is a `Store` with one slot per key used by the code
  (`guruji_auth_cache` is `cacheSlot`, `guruji_has_account` is
  `accountSlot`) and a `fails` bit; when `fails` is true every
  storage primitive raises, which the code catches.
* Raw stored strings are classified by the behaviour the code can
  distinguish (`RawVal`): the empty string (falsy for the `!cached`
  test), a string `JSON.parse` raises on, the literal `null` (whose
  `.lastSync` access raises), a parsed object lacking a usable numeric
  `lastSync` (so `Date.now() - data.lastSync` is `NaN` and the
  staleness comparison is false), and a parsed object with a numeric
  `lastSync` (a `CacheRecord`).
* JavaScript truthiness on optional strings (`x || null`, `x || ""`)
  is made explicit by `jsTruthyStr` / `jsOrStr`: the empty string is
  falsy, absence is falsy.
* Timestamps are `Int` milliseconds; exceptions are `Except`.
-/

/-- JS `a || b` on an optional string with a string default: absent and
the empty string are falsy and fall through to the default. -/
def jsOrStr : Option String → String → String
  | some s, d => if s = "" then d else s
  | none, d => d

/-- JS `a || null` on an optional string: the empty string coerces to
absent. -/
def jsTruthyStr : Option String → Option String
  | some s => if s = "" then none else some s
  | none => none

/-- The shape of the JSON object `AuthCache.set` persists, and of any
well-formed parsed value: `lastSync` is a usable numeric timestamp. -/
structure CacheRecord where
  isLoggedIn : Bool
  userId : Option String
  userName : String
  userImage : Option String
  lastSync : Int
deriving DecidableEq, Repr

/-- A successfully parsed stored value, classified by how
`AuthCache.get` can react to it. `noTimestamp` is a parsed value whose
`lastSync` does not subtract to a number (missing or non-numeric), so
the staleness comparison against `NaN` is false; only its `isLoggedIn`
truthiness and `userImage` matter downstream. -/
inductive JsonData where
  | record (r : CacheRecord)
  | noTimestamp (isLoggedIn : Bool) (userImage : Option String)
deriving DecidableEq, Repr

/-- A raw string in the cache slot, classified by behaviour: parses to
an object (`parsed`), parses to JSON `null` (property access raises),
raises in `JSON.parse` (`unparseable`), or is the empty string (falsy
before parsing is attempted). -/
inductive RawVal where
  | parsed (d : JsonData)
  | jsonNull
  | unparseable
  | emptyStr
deriving DecidableEq, Repr

/-- The two localStorage entries the module uses, plus a failure bit:
when `fails` is true, `getItem`/`setItem`/`removeItem` all raise. -/
structure Store where
  cacheSlot : Option RawVal
  accountSlot : Option String
  fails : Bool
deriving DecidableEq, Repr

/-- Partial state accepted by `AuthCache.set`; every field may be
absent (JS `undefined`). A caller-supplied `lastSync` is ignored by
`set`, which stamps its own. -/
structure AuthState where
  isLoggedIn : Option Bool := none
  userId : Option String := none
  userName : Option String := none
  userImage : Option String := none
  lastSync : Option Int := none
deriving DecidableEq, Repr

/-- The fields of a Clerk user object that `syncWithClerk` reads. -/
structure ClerkUser where
  id : String
  fullName : Option String
  firstName : Option String
  imageUrl : Option String
deriving DecidableEq, Repr

namespace AuthCache

/-- `CACHE_TTL`: 24 hours in milliseconds. -/
def CACHE_TTL : Int := 24 * 60 * 60 * 1000

/-- `AuthCache.clear`: `localStorage.removeItem(STORAGE_KEY)` inside a
try/catch; on storage failure the slot is untouched and the error is
swallowed. -/
def clear (s : Store) : Store :=
  if s.fails then s else { s with cacheSlot := none }

/-- `AuthCache.get`: reads the cache slot inside a try/catch. Raised
exceptions (storage read failure, `JSON.parse` failure, property
access on `null`) reach the catch, which clears and returns `null`. A
falsy (absent or empty) raw value returns `null` without clearing. A
parsed value with no usable `lastSync` is returned as-is, because
`Date.now() - data.lastSync` is `NaN` and `NaN > CACHE_TTL` is false.
A record is returned iff `now - lastSync <= CACHE_TTL`, else cleared. -/
def get (now : Int) (s : Store) : Option JsonData × Store :=
  if s.fails then (none, clear s)
  else
    match s.cacheSlot with
    | none => (none, s)
    | some RawVal.emptyStr => (none, s)
    | some RawVal.unparseable => (none, clear s)
    | some RawVal.jsonNull => (none, clear s)
    | some (RawVal.parsed (JsonData.noTimestamp b img)) =>
        (some (JsonData.noTimestamp b img), s)
    | some (RawVal.parsed (JsonData.record r)) =>
        if now - r.lastSync > CACHE_TTL then (none, clear s)
        else (some (JsonData.record r), s)

/-- `AuthCache.set`: builds the record with JS `||` defaults
(`state.isLoggedIn || false`, `state.userId || null`,
`state.userName || ""`, `state.userImage || null`), stamps
`lastSync: Date.now()`, and stores it; a storage write failure is
caught and logged, leaving the slot untouched. -/
def set (state : AuthState) (now : Int) (s : Store) : Store :=
  if s.fails then s
  else
    { s with cacheSlot := some (RawVal.parsed (JsonData.record {
        isLoggedIn := state.isLoggedIn.getD false,
        userId := jsTruthyStr state.userId,
        userName := jsOrStr state.userName "",
        userImage := jsTruthyStr state.userImage,
        lastSync := now })) }

/-- `AuthCache.markHasAccount`: `localStorage.setItem('guruji_has_account', 'true')`
inside a try/catch; failure is logged and swallowed. -/
def markHasAccount (s : Store) : Store :=
  if s.fails then s else { s with accountSlot := some "true" }

/-- `AuthCache.hasAccount`: `localStorage.getItem('guruji_has_account') === 'true'`;
a storage read failure is caught and returns false. -/
def hasAccount (s : Store) : Bool :=
  if s.fails then false else s.accountSlot == some "true"

/-- `AuthCache.syncWithClerk`: with a user, marks the sticky flag then
writes the snapshot (`userName: fullName || firstName || 'User'`,
`userImage: imageUrl || null`); with no user, clears the snapshot only. -/
def syncWithClerk (clerkUser : Option ClerkUser) (now : Int) (s : Store) : Store :=
  match clerkUser with
  | some u =>
      set { isLoggedIn := some true,
            userId := some u.id,
            userName := some (jsOrStr u.fullName (jsOrStr u.firstName "User")),
            userImage := jsTruthyStr u.imageUrl,
            lastSync := none } now (markHasAccount s)
  | none => clear s

/-- Truthiness of `cached.isLoggedIn` on a value returned by `get`. -/
def jsIsLoggedIn : JsonData → Bool
  | JsonData.record r => r.isLoggedIn
  | JsonData.noTimestamp b _ => b

/-- The `cached.userImage` property of a value returned by `get`. -/
def jsUserImage : JsonData → Option String
  | JsonData.record r => r.userImage
  | JsonData.noTimestamp _ i => i

/-- The three render instructions `renderOptimisticUI` can write into
the container. `authenticated` carries the avatar image actually used:
`some url` when `cached.userImage` is truthy, `none` for the generic
`fa-user` placeholder glyph. `loadingButton` is the spinner button at
opacity 0.7 with no click handler; `actionButton` is the clickable
button with the chosen label and icon and the bound deferred click
handler (see `deferredClick`). -/
inductive Affordance where
  | authenticated (imageShown : Option String)
  | loadingButton (label : String)
  | actionButton (label : String) (icon : String)
deriving DecidableEq, Repr

/-- What the deferred click handler bound by the actionable branch does
when activated: if `window.Clerk` is present it calls `openSignIn` or
`openSignUp` according to `hasAccount()`, otherwise it latches the
button into a disabled loading state. -/
inductive ClickOutcome where
  | clerkSignInCall
  | clerkSignUpCall
  | latchLoading
deriving DecidableEq, Repr

/-- The click handler installed by the third branch of
`renderOptimisticUI`, as a function of the click-time environment. -/
def deferredClick (clerkPresent : Bool) (hasAcc : Bool) : ClickOutcome :=
  if clerkPresent then
    if hasAcc then ClickOutcome.clerkSignInCall else ClickOutcome.clerkSignUpCall
  else ClickOutcome.latchLoading

/-- `AuthCache.renderOptimisticUI`: returns `false` untouched when the
container is absent; otherwise reads the cache (which may purge) and
writes exactly one affordance. Branch order is the JS order:
`cached && cached.isLoggedIn` (truthy record), then `cached === null`,
then the remaining (present, not-logged-in) case which binds the click
handler. The result pairs (returned boolean, affordance written) with
the storage state after the embedded `get`. -/
def renderOptimisticUI (containerPresent : Bool) (now : Int) (s : Store) :
    (Bool × Option Affordance) × Store :=
  if containerPresent then
    let res := get now s
    match res.1 with
    | some d =>
        if jsIsLoggedIn d then
          ((true, some (Affordance.authenticated (jsTruthyStr (jsUserImage d)))), res.2)
        else
          ((true, some (Affordance.actionButton
              (if hasAccount res.2 then "Sign In" else "Sign Up")
              (if hasAccount res.2 then "fa-sign-in-alt" else "fa-user-plus"))), res.2)
    | none =>
        ((true, some (Affordance.loadingButton
            (if hasAccount res.2 then "Sign In" else "Sign Up"))), res.2)
  else ((false, none), s)

end AuthCache

namespace BrowserDetect

/-- `BrowserDetect.inAppBrowserPatterns`, verbatim from the source. -/
def inAppBrowserPatterns : List String :=
  ["Instagram", "FBAN", "FBAV", "FB_IAB", "FB4A", "FBIOS", "TikTok",
   "BytedanceWebview", "Snapchat", "LinkedIn", "Pinterest", "Twitter",
   "Line", "KAKAOTALK", "WeChat", "MicroMessenger", "QQ", "Weibo", "GSA"]

/-- Substring occurrence on character lists: the needle occurs at the
head of some suffix of the haystack. -/
def containsSeq (needle : List Char) : List Char → Bool
  | [] => needle.isEmpty
  | c :: cs => List.isPrefixOf needle (c :: cs) || containsSeq needle cs

/-- JS `hay.includes(pat)`; also used for the literal-token regex
tests (`/Android/`, `/wv/`, ...), which are plain substring tests. -/
def strIncludes (hay pat : String) : Bool :=
  containsSeq pat.data hay.data

/-- The generic Android WebView heuristic:
`/Android/.test(ua) && /wv/.test(ua)`. -/
def matchesAndroidWebview (ua : String) : Bool :=
  strIncludes ua "Android" && strIncludes ua "wv"

/-- The generic iOS WebView heuristic:
`/iPhone|iPad|iPod/.test(ua) && /AppleWebKit/.test(ua) && !/Safari/.test(ua)`. -/
def matchesIosWebview (ua : String) : Bool :=
  (strIncludes ua "iPhone" || strIncludes ua "iPad" || strIncludes ua "iPod")
  && strIncludes ua "AppleWebKit" && !(strIncludes ua "Safari")

/-- The window properties `_isPopupBlocked` inspects, plus a bit
recording that touching them raises (the try/catch is the only reason
the probe cannot raise). -/
structure WindowCtx where
  openerNull : Bool
  referrer : String
  selfIsTop : Bool
  openDefined : Bool
  probeThrows : Bool
deriving DecidableEq, Repr

/-- The body of `_isPopupBlocked` before its catch: raises when the
context does, else returns false for a direct-navigation-looking
context, true when `window.open` is undefined, false otherwise. -/
def popupProbeBody (w : WindowCtx) : Except Unit Bool :=
  if w.probeThrows then Except.error ()
  else if w.openerNull && w.referrer == "" && w.selfIsTop then Except.ok false
  else if !w.openDefined then Except.ok true
  else Except.ok false

/-- `BrowserDetect._isPopupBlocked`: the body wrapped in try/catch;
any exception resolves to false. -/
def isPopupBlocked (w : WindowCtx) : Bool :=
  match popupProbeBody w with
  | Except.ok b => b
  | Except.error _ => false

/-- The ambient browser environment the detector and router read. -/
structure Env where
  ua : String
  win : WindowCtx
  clerkPresent : Bool
  clerkSignInDefined : Bool
  clerkSignUpDefined : Bool
  locationHref : String
deriving DecidableEq, Repr

/-- `BrowserDetect.isInAppBrowser`: signature catalog, then the
Android heuristic, then the iOS heuristic, then the popup probe. -/
def isInAppBrowser (e : Env) : Bool :=
  inAppBrowserPatterns.any (fun p => strIncludes e.ua p)
  || matchesAndroidWebview e.ua
  || matchesIosWebview e.ua
  || isPopupBlocked e.win

/-- `BrowserDetect.getInAppBrowserName`: first matching catalog entry,
else the generic Android / iOS designations, else null. -/
def getInAppBrowserName (e : Env) : Option String :=
  match inAppBrowserPatterns.find? (fun p => strIncludes e.ua p) with
  | some p => some p
  | none =>
      if matchesAndroidWebview e.ua then some "Android WebView"
      else if matchesIosWebview e.ua then some "iOS WebView"
      else none

/-- Upper-case hexadecimal digit for a value below 16. -/
def hexDigit (n : Nat) : Char :=
  if n < 10 then Char.ofNat (48 + n) else Char.ofNat (55 + n)

/-- UTF-8 bytes of a character, as the values 0..255. -/
def utf8Bytes (c : Char) : List Nat :=
  let n := c.toNat
  if n < 128 then [n]
  else if n < 2048 then [192 + n / 64, 128 + n % 64]
  else if n < 65536 then [224 + n / 4096, 128 + (n / 64) % 64, 128 + n % 64]
  else [240 + n / 262144, 128 + (n / 4096) % 64, 128 + (n / 64) % 64, 128 + n % 64]

/-- Bytes `encodeURIComponent` leaves unescaped: ASCII letters,
digits, and `- _ . ! ~ * ( )` and the apostrophe (byte 39). -/
def unreservedByte (b : Nat) : Bool :=
  (65 ≤ b && b ≤ 90) || (97 ≤ b && b ≤ 122) || (48 ≤ b && b ≤ 57) ||
  b == 45 || b == 95 || b == 46 || b == 33 || b == 126 || b == 42 ||
  b == 39 || b == 40 || b == 41

/-- Percent-encoding of one byte. -/
def encodeByte (b : Nat) : String :=
  if unreservedByte b then String.singleton (Char.ofNat b)
  else String.singleton '%' ++ String.singleton (hexDigit (b / 16))
       ++ String.singleton (hexDigit (b % 16))

/-- JS `encodeURIComponent`: percent-encodes the UTF-8 bytes of every
character outside the unreserved set. -/
def encodeURIComponent (s : String) : String :=
  s.data.foldl (fun acc c => acc ++ (utf8Bytes c).foldl (fun a b => a ++ encodeByte b) "") ""

/-- The observable effect of `openSignIn` / `openSignUp`: either a
full-page navigation (`window.location.href = url`) or a call into the
corresponding in-page Clerk entry point. There is no other outcome. -/
inductive FlowOutcome where
  | redirect (url : String)
  | clerkSignInCall
  | clerkSignUpCall
deriving DecidableEq, Repr

/-- `BrowserDetect.openSignIn`: `returnUrl = redirectUrl || location.href`;
in-app browser, or Clerk or its `openSignIn` missing, redirects to
`/sign-in?redirect_url=<encoded returnUrl>`; otherwise calls the
in-page entry point. -/
def openSignIn (redirectUrl : Option String) (e : Env) : FlowOutcome :=
  let returnUrl := jsOrStr redirectUrl e.locationHref
  if isInAppBrowser e then
    FlowOutcome.redirect ("/sign-in?redirect_url=" ++ encodeURIComponent returnUrl)
  else if e.clerkPresent && e.clerkSignInDefined then
    FlowOutcome.clerkSignInCall
  else
    FlowOutcome.redirect ("/sign-in?redirect_url=" ++ encodeURIComponent returnUrl)

/-- `BrowserDetect.openSignUp`: same shape as `openSignIn` with the
`/sign-up` path and the `openSignUp` entry point. -/
def openSignUp (redirectUrl : Option String) (e : Env) : FlowOutcome :=
  let returnUrl := jsOrStr redirectUrl e.locationHref
  if isInAppBrowser e then
    FlowOutcome.redirect ("/sign-up?redirect_url=" ++ encodeURIComponent returnUrl)
  else if e.clerkPresent && e.clerkSignUpDefined then
    FlowOutcome.clerkSignUpCall
  else
    FlowOutcome.redirect ("/sign-up?redirect_url=" ++ encodeURIComponent returnUrl)

end BrowserDetect

/-- One StateCache operation, for stating properties of operation
sequences; each carries the wall-clock instant at which it runs. -/
inductive CacheOp where
  | opSet (st : AuthState) (now : Int)
  | opClear
  | opSync (u : Option ClerkUser) (now : Int)
  | opMark
  | opGet (now : Int)

/-- Run one operation against the storage state (for `opGet`, keep the
storage state after the read, including any purge). -/
def applyOp (s : Store) : CacheOp → Store
  | CacheOp.opSet st now => AuthCache.set st now s
  | CacheOp.opClear => AuthCache.clear s
  | CacheOp.opSync u now => AuthCache.syncWithClerk u now s
  | CacheOp.opMark => AuthCache.markHasAccount s
  | CacheOp.opGet now => (AuthCache.get now s).2

/-- Run a sequence of operations left to right. -/
def applyOps (s : Store) : List CacheOp → Store
  | [] => s
  | op :: ops => applyOps (applyOp s op) ops

theorem jsOrStr_some_empty (w : String) : jsOrStr (some w) "" = w := by
  by_cases h : w = "" <;> simp [jsOrStr, h]

theorem jsTruthyStr_eq (x : Option String) :
    jsTruthyStr x = if x = some "" then none else x := by
  cases x with
  | none => simp [jsTruthyStr]
  | some s => by_cases h : s = "" <;> simp [jsTruthyStr, h]

theorem jsTruthyStr_idem (x : Option String) :
    jsTruthyStr (jsTruthyStr x) = jsTruthyStr x := by
  cases x with
  | none => simp [jsTruthyStr]
  | some s => by_cases h : s = "" <;> simp [jsTruthyStr, h]

theorem hasAccount_true_iff (s : Store) :
    AuthCache.hasAccount s = true ↔ s.fails = false ∧ s.accountSlot = some "true" := by
  unfold AuthCache.hasAccount
  by_cases h : s.fails <;> simp [h]

/-- C1: for every present external identity and every working storage
state, after `syncWithClerk` with that identity, `hasAccount()`
returns true and `get()` (read immediately, same instant) returns the
record derived from the identity with `isLoggedIn := true`, id,
display name (`fullName || firstName || "User"`), image and the sync
time. -/
theorem authCache_sync_present_reconcile (u : ClerkUser) (now : Int) (s : Store)
    (hf : s.fails = false) :
    AuthCache.hasAccount (AuthCache.syncWithClerk (some u) now s) = true ∧
    (AuthCache.get now (AuthCache.syncWithClerk (some u) now s)).1 =
      some (JsonData.record {
        isLoggedIn := true,
        userId := (if u.id = "" then none else some u.id),
        userName := jsOrStr u.fullName (jsOrStr u.firstName "User"),
        userImage := (if u.imageUrl = some "" then none else u.imageUrl),
        lastSync := now }) := by
  constructor
  · simp [AuthCache.syncWithClerk, AuthCache.set, AuthCache.markHasAccount,
      AuthCache.hasAccount, hf]
  · simp [AuthCache.syncWithClerk, AuthCache.set, AuthCache.markHasAccount,
      AuthCache.get, AuthCache.CACHE_TTL, hf, jsOrStr_some_empty, jsTruthyStr_idem,
      jsTruthyStr_eq]

/-- Witness for C1 at a concrete identity and the empty working store. -/
theorem authCache_sync_present_reconcile_witness :
    (({ cacheSlot := none, accountSlot := none, fails := false } : Store).fails = false) ∧
    (AuthCache.hasAccount (AuthCache.syncWithClerk
        (some { id := "u1", fullName := some "Ada L", firstName := none,
                imageUrl := some "https://i.test/p.png" }) 7
        { cacheSlot := none, accountSlot := none, fails := false }) = true ∧
      (AuthCache.get 7 (AuthCache.syncWithClerk
        (some { id := "u1", fullName := some "Ada L", firstName := none,
                imageUrl := some "https://i.test/p.png" }) 7
        { cacheSlot := none, accountSlot := none, fails := false })).1 =
        some (JsonData.record {
          isLoggedIn := true,
          userId := (if ("u1" : String) = "" then none else some "u1"),
          userName := jsOrStr (some "Ada L") (jsOrStr none "User"),
          userImage := (if (some "https://i.test/p.png" : Option String) = some ""
            then none else some "https://i.test/p.png"),
          lastSync := 7 })) :=
  ⟨rfl, authCache_sync_present_reconcile
    { id := "u1", fullName := some "Ada L", firstName := none,
      imageUrl := some "https://i.test/p.png" } 7
    { cacheSlot := none, accountSlot := none, fails := false } rfl⟩

/-- C2: for every prior storage state, after `syncWithClerk` with an
absent identity, `get()` returns absent (at any later instant) while
`hasAccount()` and the sticky flag entry are unchanged. -/
theorem authCache_sync_absent_frame (now now2 : Int) (s : Store) :
    (AuthCache.get now2 (AuthCache.syncWithClerk none now s)).1 = none ∧
    AuthCache.hasAccount (AuthCache.syncWithClerk none now s) = AuthCache.hasAccount s ∧
    (AuthCache.syncWithClerk none now s).accountSlot = s.accountSlot := by
  unfold AuthCache.syncWithClerk AuthCache.clear AuthCache.get AuthCache.hasAccount
  by_cases h : s.fails <;> simp [h]

/-- C3: the sticky account flag is monotonic: once `hasAccount()` is
true, it stays true across every sequence of StateCache operations
(set, clear, syncWithClerk, markHasAccount, and reads with their
purge-on-read effect); no operation wipes the flag entry. -/
theorem authCache_hasAccount_monotonic (ops : List CacheOp) (s : Store)
    (h : AuthCache.hasAccount s = true) :
    AuthCache.hasAccount (applyOps s ops) = true := by
  induction ops generalizing s with
  | nil => simpa [applyOps] using h
  | cons op ops ih =>
      refine ih (applyOp s op) ?_
      rcases (hasAccount_true_iff s).1 h with ⟨hf, ha⟩
      refine (hasAccount_true_iff _).2 ?_
      cases op with
      | opSet st now =>
          simp [applyOp, AuthCache.set, hf, ha]
      | opClear =>
          simp [applyOp, AuthCache.clear, hf, ha]
      | opSync u now =>
          cases u with
          | none => simp [applyOp, AuthCache.syncWithClerk, AuthCache.clear, hf, ha]
          | some cu =>
              simp [applyOp, AuthCache.syncWithClerk, AuthCache.set,
                AuthCache.markHasAccount, hf, ha]
      | opMark =>
          simp [applyOp, AuthCache.markHasAccount, hf, ha]
      | opGet now =>
          unfold applyOp AuthCache.get AuthCache.clear
          rcases hc : s.cacheSlot with _ | rv
          · simp [hf, ha, hc]
          · cases rv with
            | parsed d =>
                cases d with
                | record r => simp [hf, ha, hc]; split <;> simp [hf, ha]
                | noTimestamp b i => simp [hf, ha, hc]
            | jsonNull => simp [hf, ha, hc]
            | unparseable => simp [hf, ha, hc]
            | emptyStr => simp [hf, ha, hc]

/-- Witness for C3: a store with the flag set stays flagged across a
concrete mixed operation sequence ending in a sign-out reconcile. -/
theorem authCache_hasAccount_monotonic_witness :
    AuthCache.hasAccount { cacheSlot := none, accountSlot := some "true", fails := false } = true ∧
    AuthCache.hasAccount (applyOps
      { cacheSlot := none, accountSlot := some "true", fails := false }
      [CacheOp.opSet { isLoggedIn := some true } 5, CacheOp.opGet 6,
       CacheOp.opClear, CacheOp.opSync none 8]) = true :=
  ⟨by decide, authCache_hasAccount_monotonic
    [CacheOp.opSet { isLoggedIn := some true } 5, CacheOp.opGet 6,
     CacheOp.opClear, CacheOp.opSync none 8]
    { cacheSlot := none, accountSlot := some "true", fails := false } (by decide)⟩

theorem get_fst_eq_record_iff (now : Int) (s : Store) (r : CacheRecord) :
    (AuthCache.get now s).1 = some (JsonData.record r) ↔
      s.fails = false ∧ s.cacheSlot = some (RawVal.parsed (JsonData.record r)) ∧
      now - r.lastSync ≤ AuthCache.CACHE_TTL := by
  obtain ⟨slot, acct, fl⟩ := s
  cases fl with
  | true => simp [AuthCache.get, AuthCache.clear]
  | false =>
      cases slot with
      | none => simp [AuthCache.get]
      | some rv =>
          cases rv with
          | parsed d =>
              cases d with
              | record r2 =>
                  by_cases ht : now - r2.lastSync > AuthCache.CACHE_TTL
                  · simp [AuthCache.get, AuthCache.clear, ht]
                    rintro rfl
                    omega
                  · simp [AuthCache.get, ht]
                    rintro rfl
                    omega
              | noTimestamp b i => simp [AuthCache.get]
          | jsonNull => simp [AuthCache.get, AuthCache.clear]
          | unparseable => simp [AuthCache.get, AuthCache.clear]
          | emptyStr => simp [AuthCache.get]

/-- C4 counterexample: a present, parseable but malformed entry (an
object with no usable `lastSync`, e.g. the stored string `{}`) is not
well-formed, yet `get` at time 0 returns it instead of absent, and does
not purge it: the staleness test compares `NaN` and is false. -/
theorem authCache_get_malformed_returned :
    AuthCache.get 0 { cacheSlot := some (RawVal.parsed (JsonData.noTimestamp true none)),
                      accountSlot := none, fails := false }
      = (some (JsonData.noTimestamp true none),
         { cacheSlot := some (RawVal.parsed (JsonData.noTimestamp true none)),
           accountSlot := none, fails := false }) := by
  decide

/-- C4 (amended): `get` returns a well-formed record iff storage is
readable, the slot holds that parsed record, and `now - lastSync` is
within the 24-hour TTL; it returns absent and purges the entry when the
value raises during parsing or field access (unparseable, JSON null) or
when a record is expired; it returns absent without touching storage
when the entry is missing or the empty string, or when storage itself is
unreadable (the purge attempt then fails too); and a parseable value
with no usable `lastSync` is returned as-is, unpurged. The model is a
total function: no case raises. -/
theorem authCache_get_spec (now : Int) (s : Store) :
    (∀ r : CacheRecord, (AuthCache.get now s).1 = some (JsonData.record r) ↔
        s.fails = false ∧ s.cacheSlot = some (RawVal.parsed (JsonData.record r)) ∧
        now - r.lastSync ≤ AuthCache.CACHE_TTL) ∧
    (s.fails = false →
      (s.cacheSlot = some RawVal.unparseable ∨ s.cacheSlot = some RawVal.jsonNull) →
      AuthCache.get now s = (none, { s with cacheSlot := none })) ∧
    (∀ r : CacheRecord, s.fails = false →
      s.cacheSlot = some (RawVal.parsed (JsonData.record r)) →
      now - r.lastSync > AuthCache.CACHE_TTL →
      AuthCache.get now s = (none, { s with cacheSlot := none })) ∧
    ((s.cacheSlot = none ∨ s.cacheSlot = some RawVal.emptyStr) →
      (AuthCache.get now s).1 = none ∧ (AuthCache.get now s).2 = s) ∧
    (∀ b i, s.fails = false →
      s.cacheSlot = some (RawVal.parsed (JsonData.noTimestamp b i)) →
      AuthCache.get now s = (some (JsonData.noTimestamp b i), s)) ∧
    (s.fails = true → AuthCache.get now s = (none, s)) := by
  refine ⟨fun r => get_fst_eq_record_iff now s r, ?_, ?_, ?_, ?_, ?_⟩
  · rintro hf (hc | hc) <;> simp [AuthCache.get, AuthCache.clear, hf, hc]
  · intro r hf hc ht
    simp [AuthCache.get, AuthCache.clear, hf, hc, ht]
  · obtain ⟨slot, acct, fl⟩ := s
    rintro (hc | hc) <;> subst hc <;> cases fl <;>
      simp [AuthCache.get, AuthCache.clear]
  · intro b i hf hc
    simp [AuthCache.get, hf, hc]
  · intro hf
    obtain ⟨slot, acct, fl⟩ := s
    subst hf
    simp [AuthCache.get, AuthCache.clear]

/-- Witness for C4 (amended): instantiates the record case on a fresh
entry within TTL, the purge cases on an unparseable entry and an
expired record, the no-purge cases on an empty store, a malformed
entry, and failed storage. -/
theorem authCache_get_spec_witness :
    ((AuthCache.get 10
        { cacheSlot := some (RawVal.parsed (JsonData.record
            { isLoggedIn := true, userId := some "u", userName := "A",
              userImage := none, lastSync := 4 })),
          accountSlot := none, fails := false }).1 =
      some (JsonData.record
        { isLoggedIn := true, userId := some "u", userName := "A",
          userImage := none, lastSync := 4 })) ∧
    (AuthCache.get 10
        { cacheSlot := some RawVal.unparseable,
          accountSlot := some "true", fails := false } =
      (none, { cacheSlot := none, accountSlot := some "true", fails := false })) ∧
    (AuthCache.get 86400100
        { cacheSlot := some (RawVal.parsed (JsonData.record
            { isLoggedIn := false, userId := none, userName := "",
              userImage := none, lastSync := 0 })),
          accountSlot := none, fails := false } =
      (none, { cacheSlot := none, accountSlot := none, fails := false })) ∧
    ((AuthCache.get 3 { cacheSlot := none, accountSlot := none, fails := false }).1 = none) ∧
    (AuthCache.get 3
        { cacheSlot := some (RawVal.parsed (JsonData.noTimestamp false (some "x"))),
          accountSlot := none, fails := false } =
      (some (JsonData.noTimestamp false (some "x")),
       { cacheSlot := some (RawVal.parsed (JsonData.noTimestamp false (some "x"))),
         accountSlot := none, fails := false })) ∧
    (AuthCache.get 3
        { cacheSlot := some RawVal.unparseable, accountSlot := none, fails := true } =
      (none, { cacheSlot := some RawVal.unparseable, accountSlot := none, fails := true })) :=
  ⟨((authCache_get_spec 10 _).1 _).2 ⟨rfl, rfl, by decide⟩,
   (authCache_get_spec 10 _).2.1 rfl (Or.inl rfl),
   (authCache_get_spec 86400100 _).2.2.1 _ rfl rfl (by decide),
   ((authCache_get_spec 3 _).2.2.2.1 (Or.inl rfl)).1,
   (authCache_get_spec 3 _).2.2.2.2.1 false (some "x") rfl rfl,
   (authCache_get_spec 3 _).2.2.2.2.2 rfl⟩

theorem jsOrStr_empty_getD (x : Option String) : jsOrStr x "" = x.getD "" := by
  cases x with
  | none => simp [jsOrStr]
  | some w => simpa using jsOrStr_some_empty w

/-- C5 counterexample: writing a partial state that supplies the empty
string as `userId` does not store that supplied value merged over the
defaults: the JS `||` coercion in `set` replaces every falsy supplied
field by its default, so the record read back carries `userId` absent
rather than the supplied empty string. -/
theorem authCache_set_falsy_field_dropped :
    (AuthCache.get 0 (AuthCache.set { userId := some "" } 0
        { cacheSlot := none, accountSlot := none, fails := false })).1 =
      some (JsonData.record
        { isLoggedIn := false, userId := none, userName := "",
          userImage := none, lastSync := 0 }) ∧
    (none : Option String) ≠ some "" := by
  decide

/-- C5 (amended): for every partial state written via `set` on working
storage, a `get` within TTL returns a record whose fields are the
supplied ones merged over the documented defaults up to JS falsy
coercion: a supplied empty-string `userId` or `userImage` collapses to
absent, a missing `isLoggedIn` to false, a missing `userName` to the
empty string; `lastSync` equals the write instant, never a
caller-supplied value (the input `lastSync` is quantified over and
ignored). -/
theorem authCache_set_then_get (st : AuthState) (noww nowr : Int) (s : Store)
    (hf : s.fails = false) (ht : nowr - noww ≤ AuthCache.CACHE_TTL) :
    (AuthCache.get nowr (AuthCache.set st noww s)).1 =
      some (JsonData.record
        { isLoggedIn := st.isLoggedIn.getD false,
          userId := (if st.userId = some "" then none else st.userId),
          userName := st.userName.getD "",
          userImage := (if st.userImage = some "" then none else st.userImage),
          lastSync := noww }) := by
  simp [AuthCache.set, AuthCache.get, hf, if_neg (not_lt.2 ht),
    jsTruthyStr_eq, jsOrStr_empty_getD]

/-- Witness for C5 (amended) on a concrete partial state that supplies
an empty-string id, an image, no user name, and a bogus caller
`lastSync`, written at instant 2 and read at instant 5. -/
theorem authCache_set_then_get_witness :
    (({ cacheSlot := none, accountSlot := none, fails := false } : Store).fails = false) ∧
    ((5 : Int) - 2 ≤ AuthCache.CACHE_TTL) ∧
    ((AuthCache.get 5 (AuthCache.set
        { isLoggedIn := some true, userId := some "", userName := none,
          userImage := some "https://i.test/a.png", lastSync := some 999 } 2
        { cacheSlot := none, accountSlot := none, fails := false })).1 =
      some (JsonData.record
        { isLoggedIn := (some true : Option Bool).getD false,
          userId := (if (some "" : Option String) = some "" then none else some ""),
          userName := (none : Option String).getD "",
          userImage := (if (some "https://i.test/a.png" : Option String) = some ""
            then none else some "https://i.test/a.png"),
          lastSync := 2 })) :=
  ⟨rfl, by decide, authCache_set_then_get
    { isLoggedIn := some true, userId := some "", userName := none,
      userImage := some "https://i.test/a.png", lastSync := some 999 } 2 5
    { cacheSlot := none, accountSlot := none, fails := false } rfl (by decide)⟩

theorem hasAccount_get_snd (now : Int) (s : Store) :
    AuthCache.hasAccount (AuthCache.get now s).2 = AuthCache.hasAccount s := by
  obtain ⟨slot, acct, fl⟩ := s
  cases fl with
  | true => simp [AuthCache.get, AuthCache.clear, AuthCache.hasAccount]
  | false =>
      cases slot with
      | none => simp [AuthCache.get]
      | some rv =>
          cases rv with
          | parsed d =>
              cases d with
              | record r =>
                  by_cases ht : now - r.lastSync > AuthCache.CACHE_TTL <;>
                    simp [AuthCache.get, AuthCache.clear, AuthCache.hasAccount, ht]
              | noTimestamp b i => simp [AuthCache.get]
          | jsonNull => simp [AuthCache.get, AuthCache.clear, AuthCache.hasAccount]
          | unparseable => simp [AuthCache.get, AuthCache.clear, AuthCache.hasAccount]
          | emptyStr => simp [AuthCache.get]

/-- C6: with a present container, the render decision is a three-state
function of the last `get()` result plus `hasAccount()`: an absent
result yields the loading-styled control labelled by `hasAccount()`
("Sign In" when true, "Sign Up" when false); a returned value whose
`isLoggedIn` is truthy yields the authenticated affordance showing its
`userImage` when that is a present non-empty (truthy) string and the
generic placeholder otherwise; a returned value whose `isLoggedIn` is
falsy yields the actionable control with the same label rule, its icon,
and the bound deferred click action. -/
theorem renderOptimisticUI_decision (now : Int) (s : Store) :
    ((AuthCache.get now s).1 = none →
      (AuthCache.renderOptimisticUI true now s).1 =
        (true, some (AuthCache.Affordance.loadingButton
          (if AuthCache.hasAccount s then "Sign In" else "Sign Up")))) ∧
    (∀ d, (AuthCache.get now s).1 = some d → AuthCache.jsIsLoggedIn d = true →
      (AuthCache.renderOptimisticUI true now s).1 =
        (true, some (AuthCache.Affordance.authenticated
          (jsTruthyStr (AuthCache.jsUserImage d))))) ∧
    (∀ d, (AuthCache.get now s).1 = some d → AuthCache.jsIsLoggedIn d = false →
      (AuthCache.renderOptimisticUI true now s).1 =
        (true, some (AuthCache.Affordance.actionButton
          (if AuthCache.hasAccount s then "Sign In" else "Sign Up")
          (if AuthCache.hasAccount s then "fa-sign-in-alt" else "fa-user-plus")))) := by
  refine ⟨?_, ?_, ?_⟩
  · intro h
    simp [AuthCache.renderOptimisticUI, h, hasAccount_get_snd]
  · intro d hd hl
    simp [AuthCache.renderOptimisticUI, hd, hl]
  · intro d hd hl
    simp [AuthCache.renderOptimisticUI, hd, hl, hasAccount_get_snd]

/-- Witness for C6: the three scenarios of the spec at concrete states:
empty store with no account (loading "Sign Up"), a logged-in record
with an image (authenticated affordance with that image), and a
logged-out record with the flag set (actionable "Sign In"). -/
theorem renderOptimisticUI_decision_witness :
    ((AuthCache.get 0 { cacheSlot := none, accountSlot := none, fails := false }).1 = none ∧
      (AuthCache.renderOptimisticUI true 0
          { cacheSlot := none, accountSlot := none, fails := false }).1 =
        (true, some (AuthCache.Affordance.loadingButton
          (if AuthCache.hasAccount { cacheSlot := none, accountSlot := none, fails := false }
           then "Sign In" else "Sign Up")))) ∧
    ((AuthCache.renderOptimisticUI true 1
        { cacheSlot := some (RawVal.parsed (JsonData.record
            { isLoggedIn := true, userId := some "u", userName := "A",
              userImage := some "https://x/y.png", lastSync := 0 })),
          accountSlot := some "true", fails := false }).1 =
      (true, some (AuthCache.Affordance.authenticated
        (jsTruthyStr (AuthCache.jsUserImage (JsonData.record
          { isLoggedIn := true, userId := some "u", userName := "A",
            userImage := some "https://x/y.png", lastSync := 0 })))))) ∧
    ((AuthCache.renderOptimisticUI true 1
        { cacheSlot := some (RawVal.parsed (JsonData.record
            { isLoggedIn := false, userId := none, userName := "",
              userImage := none, lastSync := 0 })),
          accountSlot := some "true", fails := false }).1 =
      (true, some (AuthCache.Affordance.actionButton
        (if AuthCache.hasAccount
            { cacheSlot := some (RawVal.parsed (JsonData.record
                { isLoggedIn := false, userId := none, userName := "",
                  userImage := none, lastSync := 0 })),
              accountSlot := some "true", fails := false }
         then "Sign In" else "Sign Up")
        (if AuthCache.hasAccount
            { cacheSlot := some (RawVal.parsed (JsonData.record
                { isLoggedIn := false, userId := none, userName := "",
                  userImage := none, lastSync := 0 })),
              accountSlot := some "true", fails := false }
         then "fa-sign-in-alt" else "fa-user-plus")))) :=
  ⟨⟨by decide, (renderOptimisticUI_decision 0 _).1 (by decide)⟩,
   (renderOptimisticUI_decision 1 _).2.1 _ (by decide) (by decide),
   (renderOptimisticUI_decision 1 _).2.2
     (JsonData.record
       { isLoggedIn := false, userId := none, userName := "",
         userImage := none, lastSync := 0 }) (by decide) (by decide)⟩

/-- C7: for each requested action and every environment, the router
redirects to the fixed path with the URL-encoded return destination
whenever the context is classified restrictive (whatever the SDK
state) or the corresponding SDK entry point is unavailable; otherwise
it invokes the matching in-page entry point and issues no redirect;
and in every case it performs one of the two, never nothing. -/
theorem flowRouter_redirect_or_sdk (e : BrowserDetect.Env) (url : Option String) :
    ((BrowserDetect.isInAppBrowser e = true ∨
        (e.clerkPresent && e.clerkSignInDefined) = false) →
      BrowserDetect.openSignIn url e = BrowserDetect.FlowOutcome.redirect
        ("/sign-in?redirect_url=" ++
          BrowserDetect.encodeURIComponent (jsOrStr url e.locationHref))) ∧
    (BrowserDetect.isInAppBrowser e = false →
      (e.clerkPresent && e.clerkSignInDefined) = true →
      BrowserDetect.openSignIn url e = BrowserDetect.FlowOutcome.clerkSignInCall) ∧
    ((BrowserDetect.isInAppBrowser e = true ∨
        (e.clerkPresent && e.clerkSignUpDefined) = false) →
      BrowserDetect.openSignUp url e = BrowserDetect.FlowOutcome.redirect
        ("/sign-up?redirect_url=" ++
          BrowserDetect.encodeURIComponent (jsOrStr url e.locationHref))) ∧
    (BrowserDetect.isInAppBrowser e = false →
      (e.clerkPresent && e.clerkSignUpDefined) = true →
      BrowserDetect.openSignUp url e = BrowserDetect.FlowOutcome.clerkSignUpCall) ∧
    (((∃ u2, BrowserDetect.openSignIn url e = BrowserDetect.FlowOutcome.redirect u2) ∨
        BrowserDetect.openSignIn url e = BrowserDetect.FlowOutcome.clerkSignInCall) ∧
      ((∃ u2, BrowserDetect.openSignUp url e = BrowserDetect.FlowOutcome.redirect u2) ∨
        BrowserDetect.openSignUp url e = BrowserDetect.FlowOutcome.clerkSignUpCall)) := by
  refine ⟨?_, ?_, ?_, ?_, ?_, ?_⟩
  · rintro (h | h)
    · simp [BrowserDetect.openSignIn, h]
    · by_cases hb : BrowserDetect.isInAppBrowser e <;>
        simp [BrowserDetect.openSignIn, h, hb]
  · intro h1 h2
    simp [BrowserDetect.openSignIn, h1, h2]
  · rintro (h | h)
    · simp [BrowserDetect.openSignUp, h]
    · by_cases hb : BrowserDetect.isInAppBrowser e <;>
        simp [BrowserDetect.openSignUp, h, hb]
  · intro h1 h2
    simp [BrowserDetect.openSignUp, h1, h2]
  · by_cases hb : BrowserDetect.isInAppBrowser e <;>
      by_cases ha : (e.clerkPresent && e.clerkSignInDefined) = true <;>
      simp [BrowserDetect.openSignIn, hb, ha]
  · by_cases hb : BrowserDetect.isInAppBrowser e <;>
      by_cases ha : (e.clerkPresent && e.clerkSignUpDefined) = true <;>
      simp [BrowserDetect.openSignUp, hb, ha]

/-- Witness for C7: a restrictive environment (Facebook in-app token)
with the SDK fully available still redirects, and a plain environment
with the SDK available calls the in-page entry point. -/
theorem flowRouter_redirect_or_sdk_witness :
    (BrowserDetect.openSignIn none
      { ua := "Mozilla/5.0 [FBAN/FBIOS] like Mac OS X",
        win := { openerNull := true, referrer := "", selfIsTop := true,
                 openDefined := true, probeThrows := false },
        clerkPresent := true, clerkSignInDefined := true, clerkSignUpDefined := true,
        locationHref := "https://g.test/p?q=1" } =
      BrowserDetect.FlowOutcome.redirect
        ("/sign-in?redirect_url=" ++
          BrowserDetect.encodeURIComponent (jsOrStr none "https://g.test/p?q=1"))) ∧
    (BrowserDetect.openSignUp none
      { ua := "Mozilla/5.0 PlainDesktop Safari/605.1",
        win := { openerNull := true, referrer := "", selfIsTop := true,
                 openDefined := true, probeThrows := false },
        clerkPresent := true, clerkSignInDefined := true, clerkSignUpDefined := true,
        locationHref := "https://g.test/" } =
      BrowserDetect.FlowOutcome.clerkSignUpCall) :=
  ⟨(flowRouter_redirect_or_sdk
      { ua := "Mozilla/5.0 [FBAN/FBIOS] like Mac OS X",
        win := { openerNull := true, referrer := "", selfIsTop := true,
                 openDefined := true, probeThrows := false },
        clerkPresent := true, clerkSignInDefined := true, clerkSignUpDefined := true,
        locationHref := "https://g.test/p?q=1" } none).1 (Or.inl (by decide)),
   (flowRouter_redirect_or_sdk
      { ua := "Mozilla/5.0 PlainDesktop Safari/605.1",
        win := { openerNull := true, referrer := "", selfIsTop := true,
                 openDefined := true, probeThrows := false },
        clerkPresent := true, clerkSignInDefined := true, clerkSignUpDefined := true,
        locationHref := "https://g.test/" } none).2.2.2.1 (by decide) (by decide)⟩

theorem find?_exists_of_mem {α : Type} (p : α → Bool) (l : List α) (a : α)
    (hm : a ∈ l) (hp : p a = true) :
    ∃ q, l.find? p = some q ∧ q ∈ l ∧ p q = true := by
  induction l with
  | nil => cases hm
  | cons x xs ih =>
      by_cases hx : p x = true
      · exact ⟨x, by simp [List.find?_cons, hx], by simp, hx⟩
      · rcases List.mem_cons.1 hm with rfl | hm2
        · exact absurd hp hx
        · rcases ih hm2 with ⟨q, hq1, hq2, hq3⟩
          refine ⟨q, ?_, by simp [hq2], hq3⟩
          simpa [List.find?_cons, hx] using hq1

/-- C8: the detector classifies as in-app every user agent containing a
catalogued signature token (and the diagnostic lookup then reports a
matching signature), every user agent combining the Android token with
the `wv` webview marker, and every iOS-device user agent carrying the
AppleWebKit engine token but no Safari token; a plain desktop Chrome
user agent (in a window where `window.open` exists) is classified as
not in-app. -/
theorem browserDetect_signatures (e : BrowserDetect.Env) :
    (∀ p, p ∈ BrowserDetect.inAppBrowserPatterns →
      BrowserDetect.strIncludes e.ua p = true →
      BrowserDetect.isInAppBrowser e = true ∧
      ∃ q, q ∈ BrowserDetect.inAppBrowserPatterns ∧
        BrowserDetect.strIncludes e.ua q = true ∧
        BrowserDetect.getInAppBrowserName e = some q) ∧
    (BrowserDetect.strIncludes e.ua "Android" = true →
      BrowserDetect.strIncludes e.ua "wv" = true →
      BrowserDetect.isInAppBrowser e = true) ∧
    ((BrowserDetect.strIncludes e.ua "iPhone" || BrowserDetect.strIncludes e.ua "iPad" ||
        BrowserDetect.strIncludes e.ua "iPod") = true →
      BrowserDetect.strIncludes e.ua "AppleWebKit" = true →
      BrowserDetect.strIncludes e.ua "Safari" = false →
      BrowserDetect.isInAppBrowser e = true) ∧
    (BrowserDetect.isInAppBrowser
      { ua := "Mozilla/5.0 (Windows NT 10.0; Win64; x64) AppleWebKit/537.36 (KHTML, like Gecko) Chrome/120.0.0.0 Safari/537.36",
        win := { openerNull := true, referrer := "", selfIsTop := true,
                 openDefined := true, probeThrows := false },
        clerkPresent := false, clerkSignInDefined := false, clerkSignUpDefined := false,
        locationHref := "" } = false) := by
  refine ⟨?_, ?_, ?_, by decide⟩
  · intro p hp hinc
    constructor
    · simp [BrowserDetect.isInAppBrowser, List.any_eq_true]
      exact Or.inl (Or.inl (Or.inl ⟨p, hp, hinc⟩))
    · rcases find?_exists_of_mem (fun q => BrowserDetect.strIncludes e.ua q)
        BrowserDetect.inAppBrowserPatterns p hp hinc with ⟨q, hq1, hq2, hq3⟩
      exact ⟨q, hq2, hq3, by simp [BrowserDetect.getInAppBrowserName, hq1]⟩
  · intro h1 h2
    simp [BrowserDetect.isInAppBrowser, BrowserDetect.matchesAndroidWebview, h1, h2]
  · intro h1 h2 h3
    simp [BrowserDetect.isInAppBrowser, BrowserDetect.matchesIosWebview, h1, h2, h3]

/-- Witness for C8: an Instagram-token user agent is classified in-app
with the matching diagnostic name; an Android + `wv` agent and an
engine-only iPhone agent are classified in-app. -/
theorem browserDetect_signatures_witness :
    (BrowserDetect.isInAppBrowser
      { ua := "Mozilla/5.0 (iPhone) Instagram 300.0",
        win := { openerNull := true, referrer := "", selfIsTop := true,
                 openDefined := true, probeThrows := false },
        clerkPresent := false, clerkSignInDefined := false, clerkSignUpDefined := false,
        locationHref := "" } = true) ∧
    (BrowserDetect.getInAppBrowserName
      { ua := "Mozilla/5.0 (iPhone) Instagram 300.0",
        win := { openerNull := true, referrer := "", selfIsTop := true,
                 openDefined := true, probeThrows := false },
        clerkPresent := false, clerkSignInDefined := false, clerkSignUpDefined := false,
        locationHref := "" } = some "Instagram") ∧
    (BrowserDetect.isInAppBrowser
      { ua := "Mozilla/5.0 (Linux; Android 14; wv) Chrome/120",
        win := { openerNull := true, referrer := "", selfIsTop := true,
                 openDefined := true, probeThrows := false },
        clerkPresent := false, clerkSignInDefined := false, clerkSignUpDefined := false,
        locationHref := "" } = true) ∧
    (BrowserDetect.isInAppBrowser
      { ua := "Mozilla/5.0 (iPhone; CPU iPhone OS 17_0) AppleWebKit/605.1.15",
        win := { openerNull := true, referrer := "", selfIsTop := true,
                 openDefined := true, probeThrows := false },
        clerkPresent := false, clerkSignInDefined := false, clerkSignUpDefined := false,
        locationHref := "" } = true) :=
  ⟨((browserDetect_signatures _).1 "Instagram" (by decide) (by decide)).1,
   by decide,
   (browserDetect_signatures _).2.1 (by decide) (by decide),
   (browserDetect_signatures _).2.2.1 (by decide) (by decide) (by decide)⟩

/-- C9: the weak capability probe swallows any exception raised in its
body and then resolves to not-restrictive (false); consequently, in
any environment whose window is such a raising context, the
classification equals the pure user-agent checks alone, so a
probe-internal failure can never by itself classify the context as a
restrictive embedded webview. -/
theorem browserDetect_probe_fails_open (w : BrowserDetect.WindowCtx)
    (h : BrowserDetect.popupProbeBody w = Except.error ()) :
    BrowserDetect.isPopupBlocked w = false ∧
    (∀ e : BrowserDetect.Env, e.win = w →
      BrowserDetect.isInAppBrowser e =
        (BrowserDetect.inAppBrowserPatterns.any (fun p => BrowserDetect.strIncludes e.ua p)
          || BrowserDetect.matchesAndroidWebview e.ua
          || BrowserDetect.matchesIosWebview e.ua)) := by
  have hb : BrowserDetect.isPopupBlocked w = false := by
    simp [BrowserDetect.isPopupBlocked, h]
  refine ⟨hb, ?_⟩
  intro e he
  simp [BrowserDetect.isInAppBrowser, he, hb]

/-- Witness for C9: a window context whose property accesses raise
resolves to not-restrictive, and with a pattern-free user agent the
whole classification is false. -/
theorem browserDetect_probe_fails_open_witness :
    (BrowserDetect.popupProbeBody
      { openerNull := false, referrer := "x", selfIsTop := false,
        openDefined := false, probeThrows := true } = Except.error ()) ∧
    (BrowserDetect.isPopupBlocked
      { openerNull := false, referrer := "x", selfIsTop := false,
        openDefined := false, probeThrows := true } = false) :=
  ⟨rfl,
   (browserDetect_probe_fails_open
     { openerNull := false, referrer := "x", selfIsTop := false,
       openDefined := false, probeThrows := true } rfl).1⟩

/-- C10: the renderer is total over its public interface: with an
absent container it returns false and leaves both the container (no
affordance is produced) and storage untouched; with a present
container, for every storage and flag state it returns true and
replaces the container contents with exactly one (hence non-empty)
affordance from the three-branch decision. -/
theorem renderOptimisticUI_total (now : Int) (s : Store) :
    AuthCache.renderOptimisticUI false now s = ((false, none), s) ∧
    (AuthCache.renderOptimisticUI true now s).1.1 = true ∧
    (AuthCache.renderOptimisticUI true now s).1.2 ≠ none := by
  refine ⟨by simp [AuthCache.renderOptimisticUI], ?_, ?_⟩ <;>
  · rcases h : (AuthCache.get now s).1 with _ | d
    · simp [AuthCache.renderOptimisticUI, h]
    · cases hl : AuthCache.jsIsLoggedIn d <;>
        simp [AuthCache.renderOptimisticUI, h, hl]
